import Mathlib

/-
Verification of the fitness-tracking calculator in src/homework.py.

Embedding conventions:
* Python numeric values (int and float alike; the type annotations of the
  source are not enforced at runtime) are modelled as exact rationals.
* Class inheritance is modelled with structure extension; an inherited
  method is the base method applied to the embedded base record.
* Python division raises ZeroDivisionError at a zero divisor; the
  exception-aware embedding of a division returns an Except value
  (pydiv below), while the total embeddings use field division of
  rationals, which is only examined away from zero divisors.
* The string formatting directive for fixed three decimal digits is
  modelled by formatFixed3: round to the nearest thousandth (ties
  rounded up, which agrees with the source output on all inputs whose
  thousandfold is not exactly a half-integer) and print the integer part,
  a dot, and exactly three digits.
-/

namespace Homework

/-- The InfoMessage dataclass: training type label plus the four metrics. -/
structure InfoMessage where
  training_type : String
  duration : ℚ
  distance : ℚ
  speed : ℚ
  calories : ℚ

/-- Three decimal digits, most significant first, of a natural number below 1000. -/
def pad3 (k : ℕ) : String :=
  String.mk [Nat.digitChar (k / 100 % 10), Nat.digitChar (k / 10 % 10), Nat.digitChar (k % 10)]

/-- Fixed-point rendering with exactly three digits after the decimal dot,
    the model of the three-decimal formatting directive of the source. -/
def formatFixed3 (q : ℚ) : String :=
  (if round (1000 * q) < 0 then "-" else "")
    ++ toString ((round (1000 * q)).natAbs / 1000) ++ "."
    ++ pad3 ((round (1000 * q)).natAbs % 1000)

/-- InfoMessage.get_message: fill the fixed message template of the source
    (its literal text is Russian) with the label and the four metrics. -/
def InfoMessage.get_message (self : InfoMessage) : String :=
  "Тип тренировки: " ++ self.training_type
    ++ "; Длительность: " ++ formatFixed3 self.duration
    ++ " ч.; Дистанция: " ++ formatFixed3 self.distance
    ++ " км; Ср. скорость: " ++ formatFixed3 self.speed
    ++ " км/ч; Потрачено ккал: " ++ formatFixed3 self.calories
    ++ "."

/-- The base Training record: action count, duration in hours, weight in kg. -/
structure Training where
  action : ℚ
  duration : ℚ
  weight : ℚ

/-- Training.LEN_STEP, step length in meters. -/
def Training.LEN_STEP : ℚ := 0.65

/-- Training.M_IN_KM, meters per kilometer. -/
def Training.M_IN_KM : ℚ := 1000

/-- Training.MINUTES_IN_HOUR. -/
def Training.MINUTES_IN_HOUR : ℚ := 60

/-- Training.get_distance: distance in km. -/
def Training.get_distance (self : Training) : ℚ :=
  self.action * Training.LEN_STEP / Training.M_IN_KM

/-- Training.get_mean_speed: mean speed in km/h. -/
def Training.get_mean_speed (self : Training) : ℚ :=
  self.get_distance / self.duration

/-- The Running record: same fields as the base class. -/
structure Running extends Training

/-- Running.CALORIES_MEAN_SPEED_MULTIPLIER. -/
def Running.CALORIES_MEAN_SPEED_MULTIPLIER : ℚ := 18

/-- Running.CALORIES_MEAN_SPEED_SHIFT. -/
def Running.CALORIES_MEAN_SPEED_SHIFT : ℚ := 1.79

/-- Running.get_distance, inherited from Training. -/
def Running.get_distance (self : Running) : ℚ :=
  self.toTraining.get_distance

/-- Running.get_mean_speed, inherited from Training. -/
def Running.get_mean_speed (self : Running) : ℚ :=
  self.toTraining.get_mean_speed

/-- Running.get_spent_calories. -/
def Running.get_spent_calories (self : Running) : ℚ :=
  (Running.CALORIES_MEAN_SPEED_MULTIPLIER
      * self.get_mean_speed
      + Running.CALORIES_MEAN_SPEED_SHIFT)
    * self.weight / Training.M_IN_KM
    * (self.duration * Training.MINUTES_IN_HOUR)

/-- The SportsWalking record: base fields plus height in cm. -/
structure SportsWalking extends Training where
  height : ℚ

/-- SportsWalking.RUNNING_CALORIE_RATIO_SPEED. -/
def SportsWalking.RUNNING_CALORIE_RATIO_SPEED : ℚ := 0.035

/-- SportsWalking.RUNNING_CALORIE_RATIO_WEIGHT. -/
def SportsWalking.RUNNING_CALORIE_RATIO_WEIGHT : ℚ := 0.029

/-- SportsWalking.CONVERT_TO_MS. -/
def SportsWalking.CONVERT_TO_MS : ℚ := 0.278

/-- SportsWalking.CENTIMETERS_IN_METER. -/
def SportsWalking.CENTIMETERS_IN_METER : ℚ := 100

/-- SportsWalking.get_distance, inherited from Training. -/
def SportsWalking.get_distance (self : SportsWalking) : ℚ :=
  self.toTraining.get_distance

/-- SportsWalking.get_mean_speed, inherited from Training. -/
def SportsWalking.get_mean_speed (self : SportsWalking) : ℚ :=
  self.toTraining.get_mean_speed

/-- SportsWalking.get_spent_calories. -/
def SportsWalking.get_spent_calories (self : SportsWalking) : ℚ :=
  (SportsWalking.RUNNING_CALORIE_RATIO_SPEED * self.weight
      + ((self.get_mean_speed * SportsWalking.CONVERT_TO_MS) ^ 2
          / (self.height / SportsWalking.CENTIMETERS_IN_METER))
        * SportsWalking.RUNNING_CALORIE_RATIO_WEIGHT * self.weight)
    * (self.duration * Training.MINUTES_IN_HOUR)

/-- The Swimming record: base fields plus pool length in m and pool count. -/
structure Swimming extends Training where
  length_pool : ℚ
  count_pool : ℚ

/-- Swimming.LEN_STEP, overriding the base step length. -/
def Swimming.LEN_STEP : ℚ := 1.38

/-- Swimming.CALORIES_MEAN_SPEED_SHIFT. -/
def Swimming.CALORIES_MEAN_SPEED_SHIFT : ℚ := 1.1

/-- Swimming.SWIMMING_COEFFICIENT. -/
def Swimming.SWIMMING_COEFFICIENT : ℚ := 2

/-- Swimming.get_distance, overriding the base formula via Swimming.LEN_STEP. -/
def Swimming.get_distance (self : Swimming) : ℚ :=
  self.action * Swimming.LEN_STEP / Training.M_IN_KM

/-- Swimming.get_mean_speed, overriding the base formula. -/
def Swimming.get_mean_speed (self : Swimming) : ℚ :=
  self.length_pool * self.count_pool / Training.M_IN_KM / self.duration

/-- Swimming.get_spent_calories. -/
def Swimming.get_spent_calories (self : Swimming) : ℚ :=
  (self.get_mean_speed + Swimming.CALORIES_MEAN_SPEED_SHIFT)
    * Swimming.SWIMMING_COEFFICIENT * self.weight * self.duration

/-- Running.show_training_info: the summary assembled from the metrics. -/
def Running.show_training_info (self : Running) : InfoMessage :=
  ⟨"Running", self.duration, self.get_distance, self.get_mean_speed,
    self.get_spent_calories⟩

/-- SportsWalking.show_training_info. -/
def SportsWalking.show_training_info (self : SportsWalking) : InfoMessage :=
  ⟨"SportsWalking", self.duration, self.get_distance, self.get_mean_speed,
    self.get_spent_calories⟩

/-- Swimming.show_training_info. -/
def Swimming.show_training_info (self : Swimming) : InfoMessage :=
  ⟨"Swimming", self.duration, self.get_distance, self.get_mean_speed,
    self.get_spent_calories⟩

/-- A constructed training of any of the three variants. -/
inductive TrainingVariant where
  | swm : Swimming → TrainingVariant
  | run : Running → TrainingVariant
  | wlk : SportsWalking → TrainingVariant

/-- Applying the Swimming constructor to an unpacked argument list;
    a wrong arity raises TypeError at construction time. -/
def Swimming.construct : List ℚ → Except String TrainingVariant
  | [a, d, w, l, c] => .ok (.swm ⟨⟨a, d, w⟩, l, c⟩)
  | _ => .error "TypeError"

/-- Applying the Running constructor to an unpacked argument list. -/
def Running.construct : List ℚ → Except String TrainingVariant
  | [a, d, w] => .ok (.run ⟨⟨a, d, w⟩⟩)
  | _ => .error "TypeError"

/-- Applying the SportsWalking constructor to an unpacked argument list. -/
def SportsWalking.construct : List ℚ → Except String TrainingVariant
  | [a, d, w, h] => .ok (.wlk ⟨⟨a, d, w⟩, h⟩)
  | _ => .error "TypeError"

/-- The TRAINING_CLASSES dispatch table, code to constructor. -/
def TRAINING_CLASSES : List (String × (List ℚ → Except String TrainingVariant)) :=
  [("SWM", Swimming.construct), ("RUN", Running.construct), ("WLK", SportsWalking.construct)]

/-- read_package: raise ValueError when the code is not a key of the
    dispatch table, otherwise apply the constructor found there. -/
def read_package (workout_type : String) (data : List ℚ) : Except String TrainingVariant :=
  match TRAINING_CLASSES.lookup workout_type with
  | none => .error ("Неизвестный тип тренировки: " ++ workout_type)
  | some ctor => ctor data

/-- Python division: ZeroDivisionError at a zero divisor. -/
def pydiv (a b : ℚ) : Except String ℚ :=
  if b = 0 then .error "ZeroDivisionError" else .ok (a / b)

/-- Exception-aware Training.get_mean_speed (the division by the constant
    M_IN_KM inside get_distance cannot raise and is kept total). -/
def Training.get_mean_speedE (self : Training) : Except String ℚ :=
  pydiv self.get_distance self.duration

/-- Exception-aware Swimming.get_mean_speed. -/
def Swimming.get_mean_speedE (self : Swimming) : Except String ℚ :=
  match pydiv (self.length_pool * self.count_pool) Training.M_IN_KM with
  | .error e => .error e
  | .ok a => pydiv a self.duration

/-
State-passing embeddings of the methods: a Python method receives self and
may assign to its attributes; each method of the source only reads them, so
its state-passing embedding returns the incoming record unchanged next to
the computed value.
-/

/-- State-passing Training.get_distance. -/
def Training.get_distanceS (self : Training) : ℚ × Training :=
  (self.get_distance, self)

/-- State-passing Training.get_mean_speed. -/
def Training.get_mean_speedS (self : Training) : ℚ × Training :=
  (self.get_mean_speed, self)

/-- State-passing Running.get_distance. -/
def Running.get_distanceS (self : Running) : ℚ × Running :=
  (self.get_distance, self)

/-- State-passing Running.get_mean_speed. -/
def Running.get_mean_speedS (self : Running) : ℚ × Running :=
  (self.get_mean_speed, self)

/-- State-passing Running.get_spent_calories. -/
def Running.get_spent_caloriesS (self : Running) : ℚ × Running :=
  (self.get_spent_calories, self)

/-- State-passing SportsWalking.get_distance. -/
def SportsWalking.get_distanceS (self : SportsWalking) : ℚ × SportsWalking :=
  (self.get_distance, self)

/-- State-passing SportsWalking.get_mean_speed. -/
def SportsWalking.get_mean_speedS (self : SportsWalking) : ℚ × SportsWalking :=
  (self.get_mean_speed, self)

/-- State-passing SportsWalking.get_spent_calories. -/
def SportsWalking.get_spent_caloriesS (self : SportsWalking) : ℚ × SportsWalking :=
  (self.get_spent_calories, self)

/-- State-passing Swimming.get_distance. -/
def Swimming.get_distanceS (self : Swimming) : ℚ × Swimming :=
  (self.get_distance, self)

/-- State-passing Swimming.get_mean_speed. -/
def Swimming.get_mean_speedS (self : Swimming) : ℚ × Swimming :=
  (self.get_mean_speed, self)

/-- State-passing Swimming.get_spent_calories. -/
def Swimming.get_spent_caloriesS (self : Swimming) : ℚ × Swimming :=
  (self.get_spent_calories, self)

/-- State-passing InfoMessage.get_message. -/
def InfoMessage.get_messageS (self : InfoMessage) : String × InfoMessage :=
  (self.get_message, self)

/-- Modelled from the words of the spec, for a refinement comparison only:
    the English message template of section 4.3 of the spec, in place of the
    Russian literal text of the source. -/
def specTemplateMessage (msg : InfoMessage) : String :=
  "Training type: " ++ msg.training_type
    ++ "; Duration: " ++ formatFixed3 msg.duration
    ++ " h.; Distance: " ++ formatFixed3 msg.distance
    ++ " km; Avg speed: " ++ formatFixed3 msg.speed
    ++ " km/h; Calories burned: " ++ formatFixed3 msg.calories
    ++ "."

/-- The character of a decimal digit is a digit character. -/
lemma digitChar_lt_ten_isDigit : ∀ n : ℕ, n < 10 → (Nat.digitChar n).isDigit = true := by
  decide

/-- Every character of a pad3 rendering is a digit. -/
lemma pad3_digits (k : ℕ) : ∀ c ∈ (pad3 k).data, c.isDigit = true := by
  intro c hc
  have hd : (pad3 k).data = [Nat.digitChar (k / 100 % 10), Nat.digitChar (k / 10 % 10),
      Nat.digitChar (k % 10)] := rfl
  rw [hd] at hc
  simp only [List.mem_cons, List.not_mem_nil, or_false] at hc
  rcases hc with rfl | rfl | rfl <;>
    exact digitChar_lt_ten_isDigit _ (Nat.mod_lt _ (by norm_num))

/-- Evaluation of formatFixed3 once the rounded thousandfold is known
    and nonnegative. -/
lemma formatFixed3_nonneg (q : ℚ) (n : ℕ) (hr : round (1000 * q) = (n : ℤ)) :
    formatFixed3 q = toString (n / 1000) ++ "." ++ pad3 (n % 1000) := by
  rw [formatFixed3, hr]
  simp [Int.not_lt.mpr (Int.natCast_nonneg n)]

/-- Claim C1 counterexample: for the running variant with action=15000,
    duration=1, weight=75, get_spent_calories returns 797.805, which is not
    approximately 792.000: it exceeds 792 by more than 5. -/
theorem C1_counterexample :
    Running.get_spent_calories ⟨⟨15000, 1, 75⟩⟩ = 797.805 ∧
    792 + 5 < Running.get_spent_calories ⟨⟨15000, 1, 75⟩⟩ := by
  constructor <;>
    norm_num [Running.get_spent_calories, Running.get_mean_speed, Training.get_mean_speed,
      Training.get_distance, Running.CALORIES_MEAN_SPEED_MULTIPLIER,
      Running.CALORIES_MEAN_SPEED_SHIFT, Training.M_IN_KM, Training.MINUTES_IN_HOUR,
      Training.LEN_STEP]

/-- Claim C1 (amended): for the running variant constructed with action=15000,
    duration=1, weight=75, get_distance returns 9.750 km, get_mean_speed
    returns 9.750 km/h, and get_spent_calories returns exactly 797.805 kcal,
    the value of (18 * 9.75 + 1.79) * 75 / 1000 * (1 * 60). -/
theorem C1_running_sample_metrics :
    Running.get_distance ⟨⟨15000, 1, 75⟩⟩ = 9.75 ∧
    Running.get_mean_speed ⟨⟨15000, 1, 75⟩⟩ = 9.75 ∧
    Running.get_spent_calories ⟨⟨15000, 1, 75⟩⟩ = 797.805 ∧
    Running.get_spent_calories ⟨⟨15000, 1, 75⟩⟩ = (18 * 9.75 + 1.79) * 75 / 1000 * (1 * 60) := by
  refine ⟨?_, ?_, ?_, ?_⟩ <;>
    norm_num [Running.get_spent_calories, Running.get_distance, Running.get_mean_speed,
      Training.get_mean_speed, Training.get_distance, Running.CALORIES_MEAN_SPEED_MULTIPLIER,
      Running.CALORIES_MEAN_SPEED_SHIFT, Training.M_IN_KM, Training.MINUTES_IN_HOUR,
      Training.LEN_STEP]

/-- Claim C2: for every running record, get_spent_calories equals
    (18 * mean_speed + 1.79) * weight / 1000 * (duration * 60), with
    mean_speed the value returned by get_mean_speed. -/
theorem C2_running_calories_formula (r : Running) :
    Running.get_spent_calories r =
      (18 * Running.get_mean_speed r + 1.79) * r.weight / 1000 * (r.duration * 60) := rfl

/-- Claim C3: for every walking record, get_spent_calories equals
    (0.035 * weight + (mean_speed * 0.278)^2 / (height / 100) * 0.029 * weight)
    * (duration * 60), with mean_speed the value returned by get_mean_speed. -/
theorem C3_walking_calories_formula (w : SportsWalking) :
    SportsWalking.get_spent_calories w =
      (0.035 * w.weight
          + (SportsWalking.get_mean_speed w * 0.278) ^ 2 / (w.height / 100) * 0.029 * w.weight)
        * (w.duration * 60) := rfl

/-- Claim C4: for every swimming record, get_mean_speed equals
    length_pool * count_pool / 1000 / duration and get_spent_calories equals
    (mean_speed + 1.1) * 2 * weight * duration; for action=720, duration=1,
    weight=80, length_pool=25, count_pool=40 the mean speed is 1.000 km/h,
    the distance is 720 * 1.38 / 1000 = 0.9936 km (rendered 0.994 at three
    decimals), and the calories are 336.000. -/
theorem C4_swimming_formulas :
    (∀ s : Swimming, Swimming.get_mean_speed s
        = s.length_pool * s.count_pool / 1000 / s.duration) ∧
    (∀ s : Swimming, Swimming.get_spent_calories s
        = (Swimming.get_mean_speed s + 1.1) * 2 * s.weight * s.duration) ∧
    Swimming.get_mean_speed ⟨⟨720, 1, 80⟩, 25, 40⟩ = 1 ∧
    Swimming.get_distance ⟨⟨720, 1, 80⟩, 25, 40⟩ = 720 * 1.38 / 1000 ∧
    Swimming.get_distance ⟨⟨720, 1, 80⟩, 25, 40⟩ = 0.9936 ∧
    formatFixed3 (Swimming.get_distance ⟨⟨720, 1, 80⟩, 25, 40⟩) = "0.994" ∧
    Swimming.get_spent_calories ⟨⟨720, 1, 80⟩, 25, 40⟩ = 336 := by
  have hd : Swimming.get_distance ⟨⟨720, 1, 80⟩, 25, 40⟩ = 0.9936 := by
    norm_num [Swimming.get_distance, Swimming.LEN_STEP, Training.M_IN_KM]
  refine ⟨fun s => rfl, fun s => rfl, ?_, ?_, hd, ?_, ?_⟩
  · norm_num [Swimming.get_mean_speed, Training.M_IN_KM]
  · rw [hd]; norm_num
  · rw [hd, formatFixed3_nonneg 0.9936 994 (by rw [round_eq]; norm_num)]
    decide
  · norm_num [Swimming.get_spent_calories, Swimming.get_mean_speed,
      Swimming.CALORIES_MEAN_SPEED_SHIFT, Swimming.SWIMMING_COEFFICIENT, Training.M_IN_KM]

/-- Claim C5: every variant computes its distance as
    action * step_length / 1000, with step length 0.65 for the running and
    walking variants and 1.38 for the swimming variant. -/
theorem C5_distance_unit_basis :
    (∀ t : Training, Training.get_distance t = t.action * 0.65 / 1000) ∧
    (∀ r : Running, Running.get_distance r = r.action * 0.65 / 1000) ∧
    (∀ w : SportsWalking, SportsWalking.get_distance w = w.action * 0.65 / 1000) ∧
    (∀ s : Swimming, Swimming.get_distance s = s.action * 1.38 / 1000) :=
  ⟨fun _ => rfl, fun _ => rfl, fun _ => rfl, fun _ => rfl⟩

/-- Claim C6: read_package fails with the invalid-input ValueError on every
    workout code outside SWM, RUN, WLK and constructs nothing there; on each
    recognized code it returns the constructed record of the matching
    variant. -/
theorem C6_read_package_dispatch :
    (∀ (code : String) (data : List ℚ), code ≠ "SWM" → code ≠ "RUN" → code ≠ "WLK" →
      read_package code data = .error ("Неизвестный тип тренировки: " ++ code)) ∧
    (∀ a d w l c : ℚ, read_package "SWM" [a, d, w, l, c] = .ok (.swm ⟨⟨a, d, w⟩, l, c⟩)) ∧
    (∀ a d w : ℚ, read_package "RUN" [a, d, w] = .ok (.run ⟨⟨a, d, w⟩⟩)) ∧
    (∀ a d w h : ℚ, read_package "WLK" [a, d, w, h] = .ok (.wlk ⟨⟨a, d, w⟩, h⟩)) := by
  refine ⟨fun code data h1 h2 h3 => ?_, fun a d w l c => rfl, fun a d w => rfl,
    fun a d w h => rfl⟩
  simp [read_package, TRAINING_CLASSES, List.lookup, beq_eq_false_iff_ne.mpr h1,
    beq_eq_false_iff_ne.mpr h2, beq_eq_false_iff_ne.mpr h3]

/-- Witness for claim C6 at the concrete inputs of the driver and the code
    XYZ. -/
theorem C6_read_package_dispatch_witness :
    read_package "XYZ" [] = .error ("Неизвестный тип тренировки: " ++ "XYZ") ∧
    read_package "SWM" [720, 1, 80, 25, 40] = .ok (.swm ⟨⟨720, 1, 80⟩, 25, 40⟩) ∧
    read_package "RUN" [15000, 1, 75] = .ok (.run ⟨⟨15000, 1, 75⟩⟩) ∧
    read_package "WLK" [9000, 1, 75, 180] = .ok (.wlk ⟨⟨9000, 1, 75⟩, 180⟩) :=
  ⟨C6_read_package_dispatch.1 "XYZ" [] (by decide) (by decide) (by decide),
   C6_read_package_dispatch.2.1 720 1 80 25 40,
   C6_read_package_dispatch.2.2.1 15000 1 75,
   C6_read_package_dispatch.2.2.2 9000 1 75 180⟩

/-- Claim C7 counterexample: the formatter does not produce the English
    template of the spec; at a concrete report its output differs from the
    English rendering (the literal template of the source is Russian). -/
theorem C7_counterexample :
    InfoMessage.get_message ⟨"Running", 1, 2, 3, 4⟩ ≠
      specTemplateMessage ⟨"Running", 1, 2, 3, 4⟩ := by
  have h1 := formatFixed3_nonneg 1 1000 (by rw [round_eq]; norm_num)
  have h2 := formatFixed3_nonneg 2 2000 (by rw [round_eq]; norm_num)
  have h3 := formatFixed3_nonneg 3 3000 (by rw [round_eq]; norm_num)
  have h4 := formatFixed3_nonneg 4 4000 (by rw [round_eq]; norm_num)
  show ("Тип тренировки: " ++ "Running" ++ "; Длительность: " ++ formatFixed3 1
      ++ " ч.; Дистанция: " ++ formatFixed3 2 ++ " км; Ср. скорость: "
      ++ formatFixed3 3 ++ " км/ч; Потрачено ккал: " ++ formatFixed3 4 ++ ".") ≠
    ("Training type: " ++ "Running" ++ "; Duration: " ++ formatFixed3 1
      ++ " h.; Distance: " ++ formatFixed3 2 ++ " km; Avg speed: "
      ++ formatFixed3 3 ++ " km/h; Calories burned: " ++ formatFixed3 4 ++ ".")
  rw [h1, h2, h3, h4]
  decide

/-- Claim C7 (amended): get_message fills the fixed single-line template of
    the source, whose literal text is Russian with the same structure and
    units as the template quoted by the spec, and each numeric field is
    rendered with exactly three decimal digits regardless of magnitude. -/
theorem C7_message_template :
    (∀ msg : InfoMessage, msg.get_message =
      "Тип тренировки: " ++ msg.training_type
        ++ "; Длительность: " ++ formatFixed3 msg.duration
        ++ " ч.; Дистанция: " ++ formatFixed3 msg.distance
        ++ " км; Ср. скорость: " ++ formatFixed3 msg.speed
        ++ " км/ч; Потрачено ккал: " ++ formatFixed3 msg.calories ++ ".") ∧
    (∀ q : ℚ, ∃ (s : String) (k : ℕ), k < 1000 ∧ formatFixed3 q = s ++ "." ++ pad3 k ∧
      (pad3 k).length = 3 ∧ ∀ c ∈ (pad3 k).data, c.isDigit = true) := by
  refine ⟨fun msg => rfl, fun q => ?_⟩
  exact ⟨(if round (1000 * q) < 0 then "-" else "")
      ++ toString ((round (1000 * q)).natAbs / 1000),
    (round (1000 * q)).natAbs % 1000, Nat.mod_lt _ (by norm_num), rfl, rfl, pad3_digits _⟩

/-- Claim C8: each metric method and the formatter are pure: in the
    state-passing embedding of the methods (which assign nothing to self),
    each call returns the record unchanged, and a second call on the
    returned record yields the identical result. -/
theorem C8_purity :
    (∀ t : Training, (Training.get_distanceS t).2 = t ∧
      (Training.get_distanceS (Training.get_distanceS t).2).1 = (Training.get_distanceS t).1) ∧
    (∀ t : Training, (Training.get_mean_speedS t).2 = t ∧
      (Training.get_mean_speedS (Training.get_mean_speedS t).2).1
        = (Training.get_mean_speedS t).1) ∧
    (∀ r : Running, (Running.get_distanceS r).2 = r ∧
      (Running.get_distanceS (Running.get_distanceS r).2).1 = (Running.get_distanceS r).1) ∧
    (∀ r : Running, (Running.get_mean_speedS r).2 = r ∧
      (Running.get_mean_speedS (Running.get_mean_speedS r).2).1
        = (Running.get_mean_speedS r).1) ∧
    (∀ r : Running, (Running.get_spent_caloriesS r).2 = r ∧
      (Running.get_spent_caloriesS (Running.get_spent_caloriesS r).2).1
        = (Running.get_spent_caloriesS r).1) ∧
    (∀ w : SportsWalking, (SportsWalking.get_distanceS w).2 = w ∧
      (SportsWalking.get_distanceS (SportsWalking.get_distanceS w).2).1
        = (SportsWalking.get_distanceS w).1) ∧
    (∀ w : SportsWalking, (SportsWalking.get_mean_speedS w).2 = w ∧
      (SportsWalking.get_mean_speedS (SportsWalking.get_mean_speedS w).2).1
        = (SportsWalking.get_mean_speedS w).1) ∧
    (∀ w : SportsWalking, (SportsWalking.get_spent_caloriesS w).2 = w ∧
      (SportsWalking.get_spent_caloriesS (SportsWalking.get_spent_caloriesS w).2).1
        = (SportsWalking.get_spent_caloriesS w).1) ∧
    (∀ s : Swimming, (Swimming.get_distanceS s).2 = s ∧
      (Swimming.get_distanceS (Swimming.get_distanceS s).2).1 = (Swimming.get_distanceS s).1) ∧
    (∀ s : Swimming, (Swimming.get_mean_speedS s).2 = s ∧
      (Swimming.get_mean_speedS (Swimming.get_mean_speedS s).2).1
        = (Swimming.get_mean_speedS s).1) ∧
    (∀ s : Swimming, (Swimming.get_spent_caloriesS s).2 = s ∧
      (Swimming.get_spent_caloriesS (Swimming.get_spent_caloriesS s).2).1
        = (Swimming.get_spent_caloriesS s).1) ∧
    (∀ m : InfoMessage, (InfoMessage.get_messageS m).2 = m ∧
      (InfoMessage.get_messageS (InfoMessage.get_messageS m).2).1
        = (InfoMessage.get_messageS m).1) :=
  ⟨fun _ => ⟨rfl, rfl⟩, fun _ => ⟨rfl, rfl⟩, fun _ => ⟨rfl, rfl⟩, fun _ => ⟨rfl, rfl⟩,
   fun _ => ⟨rfl, rfl⟩, fun _ => ⟨rfl, rfl⟩, fun _ => ⟨rfl, rfl⟩, fun _ => ⟨rfl, rfl⟩,
   fun _ => ⟨rfl, rfl⟩, fun _ => ⟨rfl, rfl⟩, fun _ => ⟨rfl, rfl⟩, fun _ => ⟨rfl, rfl⟩⟩

/-- Claim C9 counterexample: at duration = 0 the mean-speed computation does
    not produce a speed value at all, infinite/NaN or otherwise: the
    division raises ZeroDivisionError. -/
theorem C9_counterexample :
    Training.get_mean_speedE ⟨15000, 0, 75⟩ = .error "ZeroDivisionError" := by
  simp [Training.get_mean_speedE, pydiv]

/-- Claim C9 (amended): non-positive duration, weight or height and the
    parameter values in general are not validated anywhere (dispatch
    constructs records from them unchecked); for a record with duration = 0
    the mean-speed computation raises an undesigned ZeroDivisionError
    rather than returning a value, and away from zero it returns the
    ordinary quotient. -/
theorem C9_no_validation :
    (∀ a w : ℚ, Training.get_mean_speedE ⟨a, 0, w⟩ = .error "ZeroDivisionError") ∧
    (∀ t : Training, t.duration ≠ 0 → Training.get_mean_speedE t = .ok t.get_mean_speed) ∧
    (∀ s : Swimming, s.duration = 0 → Swimming.get_mean_speedE s = .error "ZeroDivisionError") ∧
    read_package "RUN" [15000, 0, 75] = .ok (.run ⟨⟨15000, 0, 75⟩⟩) ∧
    read_package "WLK" [9000, 1, -75, -180] = .ok (.wlk ⟨⟨9000, 1, -75⟩, -180⟩) := by
  refine ⟨fun a w => ?_, fun t h => ?_, fun s h => ?_, rfl, rfl⟩
  · simp [Training.get_mean_speedE, pydiv]
  · simp [Training.get_mean_speedE, pydiv, h, Training.get_mean_speed]
  · simp [Swimming.get_mean_speedE, pydiv, Training.M_IN_KM, h]

/-- Witness for claim C9 at concrete records. -/
theorem C9_no_validation_witness :
    Training.get_mean_speedE ⟨15000, 0, 75⟩ = .error "ZeroDivisionError" ∧
    Training.get_mean_speedE ⟨15000, 1, 75⟩ = .ok (Training.get_mean_speed ⟨15000, 1, 75⟩) ∧
    Swimming.get_mean_speedE ⟨⟨720, 0, 80⟩, 25, 40⟩ = .error "ZeroDivisionError" :=
  ⟨C9_no_validation.1 15000 75,
   C9_no_validation.2.1 ⟨15000, 1, 75⟩ (by norm_num [Training.duration]),
   C9_no_validation.2.2.1 ⟨⟨720, 0, 80⟩, 25, 40⟩ rfl⟩

/-- Claim C10: for the base, running and walking records with nonzero
    duration, get_mean_speed times duration equals get_distance; for the
    swimming variant the identity fails at the driver sample, whose distance
    comes from the stroke count while its speed comes from the pool data. -/
theorem C10_speed_duration_distance :
    (∀ t : Training, t.duration ≠ 0 → t.get_mean_speed * t.duration = t.get_distance) ∧
    (∀ r : Running, r.duration ≠ 0 →
      Running.get_mean_speed r * r.duration = Running.get_distance r) ∧
    (∀ w : SportsWalking, w.duration ≠ 0 →
      SportsWalking.get_mean_speed w * w.duration = SportsWalking.get_distance w) ∧
    Swimming.get_mean_speed ⟨⟨720, 1, 80⟩, 25, 40⟩ * (⟨⟨720, 1, 80⟩, 25, 40⟩ : Swimming).duration
      ≠ Swimming.get_distance ⟨⟨720, 1, 80⟩, 25, 40⟩ := by
  refine ⟨fun t h => ?_, fun r h => ?_, fun w h => ?_, ?_⟩
  · simp only [Training.get_mean_speed]
    exact div_mul_cancel₀ _ h
  · simp only [Running.get_mean_speed, Running.get_distance, Training.get_mean_speed]
    exact div_mul_cancel₀ _ h
  · simp only [SportsWalking.get_mean_speed, SportsWalking.get_distance, Training.get_mean_speed]
    exact div_mul_cancel₀ _ h
  · norm_num [Swimming.get_mean_speed, Swimming.get_distance, Swimming.LEN_STEP,
      Training.M_IN_KM]

/-- Witness for claim C10 at the driver sample records. -/
theorem C10_speed_duration_distance_witness :
    Training.get_mean_speed ⟨15000, 1, 75⟩ * (⟨15000, 1, 75⟩ : Training).duration
      = Training.get_distance ⟨15000, 1, 75⟩ ∧
    Running.get_mean_speed ⟨⟨15000, 1, 75⟩⟩ * (⟨⟨15000, 1, 75⟩⟩ : Running).duration
      = Running.get_distance ⟨⟨15000, 1, 75⟩⟩ ∧
    SportsWalking.get_mean_speed ⟨⟨9000, 1, 75⟩, 180⟩
        * (⟨⟨9000, 1, 75⟩, 180⟩ : SportsWalking).duration
      = SportsWalking.get_distance ⟨⟨9000, 1, 75⟩, 180⟩ :=
  ⟨C10_speed_duration_distance.1 ⟨15000, 1, 75⟩ (by norm_num [Training.duration]),
   C10_speed_duration_distance.2.1 ⟨⟨15000, 1, 75⟩⟩ (by norm_num [Training.duration]),
   C10_speed_duration_distance.2.2.1 ⟨⟨9000, 1, 75⟩, 180⟩ (by norm_num [Training.duration])⟩

end Homework
